import Mathlib

/-!
Verification of the NanoBananaBot posting service (`main.py`) against its
natural-language specification.  The Python program is shallowly embedded:
pure computations become Lean functions, outbound HTTP traffic is modelled
by an explicit environment assigning an outcome to each successive request,
and Python exceptions become `Except Unit` values that the embedded
`try`/`except` structure catches exactly where the source does.
-/

namespace NanoBanana

/-! ## Scheduler (`AIPostBot.setup_schedule`)

The source computes `total_minutes = (end_hour - start_hour) * 60`,
`interval = total_minutes // 19`, and for `i in range(20)` the slot
`(start_hour + (i*interval) // 60, (i*interval) % 60)`.  `compute_slots`
is the same arithmetic with the window and count as parameters (the source
instantiates `start_hour = 7`, `end_hour = 21`, `N = 20`, `N - 1 = 19`). -/

def compute_slots (start_hour end_hour n : Nat) : List (Nat × Nat) :=
  let total_minutes := (end_hour - start_hour) * 60
  let interval := total_minutes / (n - 1)
  (List.range n).map (fun i =>
    let minutes_from_start := i * interval
    (start_hour + minutes_from_start / 60, minutes_from_start % 60))

/-- The interval the source hard-codes: `(21 - 7) * 60 // 19`. -/
def setup_interval : Nat := ((21 - 7) * 60) / 19

/-- The 20 daily slot times produced by `setup_schedule` (hour, minute). -/
def setup_schedule_times : List (Nat × Nat) := compute_slots 7 21 20

/-- Time-of-day of a slot in minutes. -/
def slotMinutes (p : Nat × Nat) : Nat := p.1 * 60 + p.2

/-! ## Publisher (`AIPostBot.post_to_telegram`)

Each `requests.post` call either returns a response with a status code or
raises; the environment `TgEnv` assigns an outcome to the k-th outbound
request of one `post_to_telegram` call.  The body records every request it
issues; a raised exception (`HttpOutcome.exn`) aborts the body with
`Except.error`, which the function's outer `except` clause turns into the
return value `false`. -/

inductive HttpOutcome where
  | resp (status : Nat)
  | exn
deriving DecidableEq

structure TgEnv where
  outcome : Nat → HttpOutcome

inductive SendOp where
  | sendPhoto (caption : String)
  | sendMessage (text : String)
deriving DecidableEq

/-- The short caption used when the text exceeds the 1024-character limit. -/
def short_caption : String := "AI haqida qiziqarli ma\x27lumot 👇"

/-- The `try` body of `post_to_telegram`: result of the body (or the
exception it raises) together with the list of outbound sends issued. -/
def post_to_telegram_body (env : TgEnv) (text : String) (image : Option (List Nat)) :
    Except Unit Bool × List SendOp :=
  match image with
  | some _ =>
    if text.length ≤ 1024 then
      -- send photo with full caption
      match env.outcome 0 with
      | .exn => (.error (), [.sendPhoto text])
      | .resp s =>
        if s = 200 then (.ok true, [.sendPhoto text])
        else (.ok false, [.sendPhoto text])
    else
      -- text too long: photo with short caption, then full text separately
      match env.outcome 0 with
      | .exn => (.error (), [.sendPhoto short_caption])
      | .resp s =>
        if s ≠ 200 then (.ok false, [.sendPhoto short_caption])
        else
          match env.outcome 1 with
          | .exn => (.error (), [.sendPhoto short_caption, .sendMessage text])
          | .resp s2 =>
            if s2 = 200 then (.ok true, [.sendPhoto short_caption, .sendMessage text])
            else (.ok false, [.sendPhoto short_caption, .sendMessage text])
  | none =>
    -- send text message only
    match env.outcome 0 with
    | .exn => (.error (), [.sendMessage text])
    | .resp s =>
      if s = 200 then (.ok true, [.sendMessage text])
      else (.ok false, [.sendMessage text])

/-- `post_to_telegram`: the body wrapped in `try`/`except`; any exception
is caught, logged and converted to the return value `false`. -/
def post_to_telegram (env : TgEnv) (text : String) (image : Option (List Nat)) :
    Bool × List SendOp :=
  match post_to_telegram_body env text image with
  | (.ok b, sends) => (b, sends)
  | (.error _, sends) => (false, sends)

/-- Success condition written from the spec's words (§4.4/§6): every send
of the chosen path returned HTTP 200. -/
def publishSuccess (env : TgEnv) (text : String) (image : Option (List Nat)) : Prop :=
  match image with
  | some _ =>
    if text.length ≤ 1024 then env.outcome 0 = .resp 200
    else env.outcome 0 = .resp 200 ∧ env.outcome 1 = .resp 200
  | none => env.outcome 0 = .resp 200

/-! ## Content generation (`AIPostBot.generate_uzbek_text`)

The upstream `generate_content` call either raises (`Except.error`),
returns a response whose `text` attribute is missing/falsy (`Except.ok
none`), or carries a text payload (`Except.ok (some s)`; the empty string
is falsy in Python and is covered by the same `else` branch).  Python's
`str.strip` is embedded as `pyStrip`. -/

/-- The fixed list of topics held by the bot. -/
def ai_topics : List String := [
  "🎯 Prompt engineering sirli formulasi — AI dan 10x yaxshi natija olish yo\x27llari",
  "💸 AI bilan pul ishlash — real misollar va bosqichma-bosqich yo\x27riqnoma",
  "🎨 Midjourney va DALL-E dan ajoyib rasmlar — professional promptlar va triklar",
  "💻 ChatGPT bilan dasturlash — zero dan hero gacha yo\x27l",
  "📈 AI bilan biznes-ideya yaratish — startup uchun 100 ta fikr 1 daqiqada",
  "📝 CV yozishda AI mahorati — HR ni hayratda qoldiradigan resume yaratish",
  "🎬 AI video yaratish — YouTube uchun kontentni 5 daqiqada tayyorlash",
  "📚 O\x27zbek tilida AI — ChatGPT ga o\x27zbekcha qanday gaplashish o\x27rgatish?",
  "🔥 AI xatolarini bartaraf etish — nima uchun javob noto\x27g\x27ri va qanday tuzatish?",
  "🚀 AI bilan startup ochish — texnologiya orqali biznes qurish sirlari",
  "📸 AI rasm promptlari kolleksiyasi — har kuni yangi tasvirlar yaratish",
  "💡 Neural tarmoqlar oddiy tilda — 5 yoshli bolaga tushuntirish mumkin!",
  "⚡ GPT-4 vs Gemini vs Claude — qaysi biri eng zo\x27ri? Real test natijalar",
  "🎵 AI musiqa yaratish — hit qo\x27shiq yozish uchun professional yo\x27riqnoma",
  "🎮 AI bilan o\x27yin yaratish — kodlashmasdan o\x27yin yasash mumkinmi?",
  "📊 AI bilan ma\x27lumot tahlili — Excel dan 100x tezroq ishlash usullari",
  "🌍 AI tarjimon — 100+ tilda professional tarjima qilish sirlari",
  "📱 AI chat-bot yaratish — Telegram uchun aqlli assistant qurish",
  "🎪 AI bilan kreativ yozish — hikoya, she\x27r, ssenariy yaratish mahorati",
  "💼 AI bilan marketing — reklama matni va strategiya yaratish formulasi",
  "🔮 AI kelajak bashorati — 2025-yilda qanday imkoniyatlar ochiladi?",
  "🏆 AI olimpiada — kim eng zo\x27r prompt yoza oladi? Musobaqa boshlanadi!",
  "🎭 AI roleplay — ChatGPT ni Elon Musk, Steve Jobs kabi qilish sirlari",
  "📈 AI trading — kriptovalyuta va aksiyalarda AI yordamchisi"]

/-- Python `str.strip()`: whitespace removed from both ends. -/
def pyStrip (s : String) : String :=
  String.mk (((s.data.dropWhile Char.isWhitespace).reverse.dropWhile
    Char.isWhitespace).reverse)

/-- The fallback paragraph text before the interpolated topic. -/
def fallback_before_topic : String :=
  "AI texnologiyalari kundan-kunga rivojlanmoqda va bizning hayotimizni o\x27zgartirmoqda. "

/-- The fallback paragraph text after the interpolated topic. -/
def fallback_after_topic : String :=
  " mavzusi bo\x27yicha ko\x27proq o\x27rganish juda muhim.\n\nBugungi kunda AI asboblari bizga vaqt tejash, samaradorlikni oshirish va yangi imkoniyatlar ochishda yordam bermoqda. Har bir yangi AI texnologiyasi o\x27z afzalliklari va cheklovlariga ega.\n\nBu sohadagi yangiliklar va rivojlanishlar doimo kuzatib borish zarur. Professional rivojlanish uchun doimiy o\x27rganish va amaliyot qilish muhim.\n\nSizning fikringizcha, AI texnologiyalari kelajakda qanday rivojlanadi?\n\n➡️ https://t.me/nanobanananews kanaliga obuna bo\x27ling!"

/-- `_get_fallback_text`: the topic-parameterized fallback paragraph. -/
def get_fallback_text (topic : String) : String :=
  fallback_before_topic ++ topic ++ fallback_after_topic

/-- `generate_uzbek_text`: return the stripped upstream text when the
response carries a truthy `text` attribute, the fallback paragraph when it
is missing, empty, or when the upstream call raises. -/
def generate_uzbek_text (upstream : Except Unit (Option String)) (topic : String) :
    String :=
  match upstream with
  | .error _ => get_fallback_text topic
  | .ok none => get_fallback_text topic
  | .ok (some s) => if s = "" then get_fallback_text topic else pyStrip s

/-! ## Image provider (`generate_topic_image`, `create_topic_graphic`)

A response part optionally carries `inline_data.data`, either a base64
string (decoded via the library call, which may raise) or raw bytes.  The
loop in `generate_topic_image` returns the first part whose decoded data is
non-empty; a decode exception escapes the loop and is caught by the
function's `except`, which returns `None`.  `create_topic_graphic`'s
pixel-level PIL drawing is an external collaborator; its outcome (a buffer,
or an exception caught by the function's own `except`) is a parameter. -/

inductive ImgData where
  | b64 (s : String)
  | raw (bytes : List Nat)
deriving DecidableEq

structure ImgPart where
  inline_data : Option ImgData
deriving DecidableEq

/-- The part-scanning loop of `generate_topic_image`.  `Except.error`
models a `base64.b64decode` exception escaping the loop. -/
def scan_parts (b64decode : String → Except Unit (List Nat)) :
    List ImgPart → Except Unit (Option (List Nat))
  | [] => .ok none
  | p :: ps =>
    match p.inline_data with
    | none => scan_parts b64decode ps
    | some (.b64 s) =>
      match b64decode s with
      | .error _ => .error ()
      | .ok bytes =>
        if 0 < bytes.length then .ok (some bytes) else scan_parts b64decode ps
    | some (.raw bytes) =>
      if 0 < bytes.length then .ok (some bytes) else scan_parts b64decode ps

/-- `generate_topic_image`: scan the response parts for the first
non-empty decodable image; any exception (upstream raise or decode error)
is caught and converted to `none`. -/
def generate_topic_image (b64decode : String → Except Unit (List Nat))
    (resp : Except Unit (Option (List ImgPart))) : Option (List Nat) :=
  match resp with
  | .error _ => none
  | .ok none => none
  | .ok (some parts) =>
    match scan_parts b64decode parts with
    | .error _ => none
    | .ok r => r

/-- `create_topic_graphic`: the PIL rendering either produces a buffer or
raises; the function's `except` converts the exception to `None`. -/
def create_topic_graphic (render : Except Unit (List Nat)) : Option (List Nat) :=
  match render with
  | .ok buf => some buf
  | .error _ => none

/-- The image-production chain of `create_and_post_ai_post`: try AI
generation first, fall back to the local graphic when it yields nothing. -/
def produce_image (b64decode : String → Except Unit (List Nat))
    (resp : Except Unit (Option (List ImgPart)))
    (render : Except Unit (List Nat)) : Option (List Nat) :=
  match generate_topic_image b64decode resp with
  | some buf => some buf
  | none => create_topic_graphic render

/-! ## Scheduled task and polling loop
(`create_and_post_ai_post`, `run_scheduler`) -/

/-- Environment of one scheduled run: the topic pick, the upstream
outcomes, the HTTP environment, and whether an unexpected exception is
raised inside the task body. -/
structure RunEnv where
  topicIdx : Nat
  textUpstream : Except Unit (Option String)
  imageResp : Except Unit (Option (List ImgPart))
  b64decode : String → Except Unit (List Nat)
  render : Except Unit (List Nat)
  tg : TgEnv
  unexpected : Bool

/-- The `try` body of `create_and_post_ai_post`. -/
def create_and_post_body (env : RunEnv) : Except Unit Bool :=
  if env.unexpected then .error ()
  else
    let topic := ai_topics.getD (env.topicIdx % ai_topics.length) ""
    let text_content := generate_uzbek_text env.textUpstream topic
    let image_buffer := produce_image env.b64decode env.imageResp env.render
    .ok (post_to_telegram env.tg text_content image_buffer).1

/-- `create_and_post_ai_post`: the task body wrapped in `try`/`except`;
every exception is caught and logged, so the task returns normally. -/
def create_and_post_ai_post (env : RunEnv) : Except Unit Unit :=
  match create_and_post_body env with
  | .ok _ => .ok ()
  | .error _ => .ok ()

/-- State of the `run_scheduler` polling loop after `k` cycles: `some n`
means the loop is alive having performed `n` pending-checks, `none` means
it terminated.  Each cycle runs `schedule.run_pending()` (outcome given by
the stream) inside `try`/`except`: both outcomes log-and-continue. -/
def scheduler_alive (outcomes : Nat → Except Unit Unit) : Nat → Option Nat
  | 0 => some 0
  | k + 1 =>
    match scheduler_alive outcomes k with
    | none => none
    | some n =>
      match outcomes n with
      | .ok _ => some (n + 1)
      | .error _ => some (n + 1)

/-! ## Startup configuration (`AIPostBot.__init__`, `main`) -/

/-- The three environment-provided credentials; `none` models an unset
variable (Python `os.getenv` returning `None`). -/
structure EnvCfg where
  google_api_key : Option String
  telegram_bot_token : Option String
  telegram_channel_id : Option String

/-- Python falsiness of a credential: unset, or the empty string. -/
def isMissing : Option String → Bool
  | none => true
  | some s => s == ""

/-- `missing_vars` accumulated in `__init__`. -/
def missing_vars (cfg : EnvCfg) : List String :=
  (if isMissing cfg.google_api_key then ["GOOGLE_API_KEY"] else []) ++
  (if isMissing cfg.telegram_bot_token then ["TELEGRAM_BOT_TOKEN"] else []) ++
  (if isMissing cfg.telegram_channel_id then ["TELEGRAM_CHANNEL_ID"] else [])

/-- The startup actions `main` performs. -/
structure StartupActions where
  schedule_installed : Bool
  scheduler_started : Bool
  web_server_started : Bool
deriving DecidableEq

/-- `main`: install the schedule and start the scheduler thread only when
no credential is missing; always start the Flask web server. -/
def main_startup (cfg : EnvCfg) : StartupActions :=
  { schedule_installed := (missing_vars cfg).isEmpty
    scheduler_started := (missing_vars cfg).isEmpty
    web_server_started := true }

/-- Response body of the `/health` liveness endpoint. -/
def health_response : String := "healthy"

/-! ## Concrete inputs used by witnesses and counterexamples -/

/-- Environment in which every request returns HTTP 200. -/
def envAll200 : TgEnv := ⟨fun _ => .resp 200⟩

/-- Environment in which every request returns HTTP 503. -/
def envAll503 : TgEnv := ⟨fun _ => .resp 503⟩

/-- Environment: first request 200, every later request 500. -/
def envThenFail : TgEnv := ⟨fun k => if k = 0 then .resp 200 else .resp 500⟩

/-- A 500-character text. -/
def text500 : String := String.mk (List.replicate 500 'a')

/-- A 2000-character text. -/
def text2000 : String := String.mk (List.replicate 2000 'a')

/-- The first topic of the fixed list. -/
def topic0 : String :=
  "🎯 Prompt engineering sirli formulasi — AI dan 10x yaxshi natija olish yo\x27llari"

/-- A decode stub used by witnesses (never consulted for raw payloads). -/
def b64stub : String → Except Unit (List Nat) := fun _ => .ok []

/-- An AI image response with one raw non-empty part. -/
def aiRespRaw7 : Except Unit (Option (List ImgPart)) := .ok (some [⟨some (.raw [7])⟩])

/-- A successful local render outcome. -/
def renderOk1 : Except Unit (List Nat) := .ok [1]

/-! ## Scheduler lemmas and claims -/

theorem compute_slots_length (s e n : Nat) : (compute_slots s e n).length = n := by
  simp [compute_slots]

theorem compute_slots_getD (s e n i : Nat) (hi : i < n) :
    (compute_slots s e n).getD i (0, 0) =
      (s + (i * ((e - s) * 60 / (n - 1))) / 60, (i * ((e - s) * 60 / (n - 1))) % 60) := by
  unfold compute_slots
  rw [List.getD_eq_getElem?_getD, List.getElem?_map, List.getElem?_range hi]
  rfl

theorem slotMinutes_compute_slots (s e n i : Nat) (hi : i < n) :
    slotMinutes ((compute_slots s e n).getD i (0, 0)) =
      s * 60 + i * ((e - s) * 60 / (n - 1)) := by
  rw [compute_slots_getD s e n i hi]
  unfold slotMinutes
  have h := Nat.div_add_mod (i * ((e - s) * 60 / (n - 1))) 60
  simp only []
  omega

/-- C2: with the configured window `start_hour = 7`, `end_hour = 21` and
`N = 20`, the scheduler computes an interval of 44 minutes and produces
exactly 20 daily slots, strictly increasing with no two coinciding, with
slot 0 at 07:00, slot 1 at 07:44 and slot 19 at 20:56. -/
theorem setup_schedule_concrete :
    setup_interval = 44 ∧
    setup_schedule_times.length = 20 ∧
    List.Pairwise (fun a b => slotMinutes a < slotMinutes b) setup_schedule_times ∧
    setup_schedule_times.Nodup ∧
    setup_schedule_times.getD 0 (0, 0) = (7, 0) ∧
    setup_schedule_times.getD 1 (0, 0) = (7, 44) ∧
    setup_schedule_times.getD 19 (0, 0) = (20, 56) := by
  refine ⟨by decide, by decide, by decide, by decide, by decide, by decide, by decide⟩

/-- C3: for every `(start_hour, end_hour, N)` with `N ≥ 2` and
`end_hour > start_hour`, the slot-computation algorithm produces exactly
`N` slots, non-decreasing in time-of-day, with slot 0 equal to
`start_hour:00` and slot `N-1` at or before `end_hour:00`. -/
theorem compute_slots_spec (s e n : Nat) (h2 : 2 ≤ n) (hse : s < e) :
    (compute_slots s e n).length = n ∧
    (∀ i j, i ≤ j → j < n →
      slotMinutes ((compute_slots s e n).getD i (0, 0)) ≤
        slotMinutes ((compute_slots s e n).getD j (0, 0))) ∧
    (compute_slots s e n).getD 0 (0, 0) = (s, 0) ∧
    slotMinutes ((compute_slots s e n).getD (n - 1) (0, 0)) ≤ e * 60 := by
  refine ⟨compute_slots_length s e n, ?_, ?_, ?_⟩
  · intro i j hij hjn
    rw [slotMinutes_compute_slots s e n i (lt_of_le_of_lt hij hjn),
      slotMinutes_compute_slots s e n j hjn]
    exact Nat.add_le_add_left (Nat.mul_le_mul_right _ hij) _
  · rw [compute_slots_getD s e n 0 (by omega)]
    simp
  · rw [slotMinutes_compute_slots s e n (n - 1) (by omega)]
    have hle : (n - 1) * ((e - s) * 60 / (n - 1)) ≤ (e - s) * 60 := by
      calc (n - 1) * ((e - s) * 60 / (n - 1))
          = (e - s) * 60 / (n - 1) * (n - 1) := Nat.mul_comm _ _
        _ ≤ (e - s) * 60 := Nat.div_mul_le_self _ _
    have hlin : s * 60 + (e - s) * 60 = e * 60 := by omega
    omega

/-- Witness for `compute_slots_spec` at the configured instance. -/
theorem compute_slots_spec_witness :
    2 ≤ 20 ∧ (compute_slots 7 21 20).length = 20 :=
  ⟨by decide, (compute_slots_spec 7 21 20 (by decide) (by decide)).1⟩

/-! ## Publisher claims -/

theorem text500_length : text500.length = 500 := by
  rw [text500, ← String.length_data]
  exact List.length_replicate ..

theorem text2000_length : text2000.length = 2000 := by
  rw [text2000, ← String.length_data]
  exact List.length_replicate ..

/-- C5: when every request succeeds, an image with text within the
1024-character caption limit yields exactly one outbound send (the photo
with the full text as caption); an image with longer text yields exactly
two sends (short-caption photo, then the full text); no image yields the
single text message. -/
theorem post_send_counts (env : TgEnv) (text : String) (img : List Nat)
    (hall : ∀ k, env.outcome k = .resp 200) :
    (text.length ≤ 1024 →
      post_to_telegram env text (some img) = (true, [.sendPhoto text])) ∧
    (1024 < text.length →
      post_to_telegram env text (some img) =
        (true, [.sendPhoto short_caption, .sendMessage text])) ∧
    post_to_telegram env text none = (true, [.sendMessage text]) := by
  refine ⟨?_, ?_, ?_⟩
  · intro hlen
    simp [post_to_telegram, post_to_telegram_body, hlen, hall 0]
  · intro hlen
    simp [post_to_telegram, post_to_telegram_body, Nat.not_le.mpr hlen, hall 0, hall 1]
  · simp [post_to_telegram, post_to_telegram_body, hall 0]

/-- Witness for `post_send_counts`: length-500 text with an image yields
one send, length-2000 text with an image yields two sends. -/
theorem post_send_counts_witness :
    (post_to_telegram envAll200 text500 (some [0])).2.length = 1 ∧
    (post_to_telegram envAll200 text2000 (some [0])).2.length = 2 := by
  have h1 := (post_send_counts envAll200 text500 [0] (fun k => rfl)).1
    (by rw [text500_length]; omega)
  have h2 := (post_send_counts envAll200 text2000 [0] (fun k => rfl)).2.1
    (by rw [text2000_length]; omega)
  rw [h1, h2]
  exact ⟨rfl, rfl⟩

/-- C6: the publisher returns a boolean success value and never raises
past its boundary: the result is `true` exactly when every send of the
chosen path returned HTTP 200, and whenever the body raises, the exception
is caught and converted to the result `false`. -/
theorem post_returns_bool (env : TgEnv) (text : String) (img : Option (List Nat)) :
    ((post_to_telegram env text img).1 = true ↔ publishSuccess env text img) ∧
    ((post_to_telegram_body env text img).1 = .error () →
      (post_to_telegram env text img).1 = false) := by
  constructor
  · rcases img with _ | i
    · rcases h0 : env.outcome 0 with s | _
      · by_cases hs : s = 200 <;>
          simp [post_to_telegram, post_to_telegram_body, publishSuccess, h0, hs]
      · simp [post_to_telegram, post_to_telegram_body, publishSuccess, h0]
    · by_cases hlen : text.length ≤ 1024
      · rcases h0 : env.outcome 0 with s | _
        · by_cases hs : s = 200 <;>
            simp [post_to_telegram, post_to_telegram_body, publishSuccess, hlen, h0, hs]
        · simp [post_to_telegram, post_to_telegram_body, publishSuccess, hlen, h0]
      · rcases h0 : env.outcome 0 with s | _
        · by_cases hs : s = 200
          · rcases h1 : env.outcome 1 with s2 | _
            · by_cases hs2 : s2 = 200 <;>
                simp [post_to_telegram, post_to_telegram_body, publishSuccess,
                  hlen, h0, h1, hs, hs2]
            · simp [post_to_telegram, post_to_telegram_body, publishSuccess,
                hlen, h0, h1, hs]
          · simp [post_to_telegram, post_to_telegram_body, publishSuccess, hlen, h0, hs]
        · simp [post_to_telegram, post_to_telegram_body, publishSuccess, hlen, h0]
  · intro h
    unfold post_to_telegram
    rcases hb : post_to_telegram_body env text img with ⟨r, sends⟩
    rw [hb] at h
    cases r with
    | ok b => simp at h
    | error u => simp

/-- Witness for `post_returns_bool` (vacuous hypotheses discharged at a
concrete environment): a 404 response yields the result `false`. -/
theorem post_returns_bool_witness :
    (post_to_telegram ⟨fun _ => .resp 404⟩ "x" none).1 = false := by
  have h := (post_returns_bool ⟨fun _ => .resp 404⟩ "x" none).1
  rcases hres : (post_to_telegram ⟨fun _ => .resp 404⟩ "x" none).1 with _ | _
  · rfl
  · exact absurd (h.mp hres) (by simp [publishSuccess])

/-- C10: the two-message publish path is not atomic — if the photo
request returns HTTP 200 but the follow-up full-text send does not, the
publisher returns `false` even though the photo send already happened
(it appears in the outbound send list with a 200 outcome). -/
theorem post_two_message_not_atomic (env : TgEnv) (text : String) (img : List Nat)
    (hlen : 1024 < text.length) (h0 : env.outcome 0 = .resp 200)
    (h1 : env.outcome 1 ≠ .resp 200) :
    post_to_telegram env text (some img) =
      (false, [.sendPhoto short_caption, .sendMessage text]) := by
  rcases hr : env.outcome 1 with s2 | _
  · have hs2 : s2 ≠ 200 := by
      intro h
      exact h1 (by rw [hr, h])
    simp [post_to_telegram, post_to_telegram_body, Nat.not_le.mpr hlen, h0, hr, hs2]
  · simp [post_to_telegram, post_to_telegram_body, Nat.not_le.mpr hlen, h0, hr]

/-- Witness for `post_two_message_not_atomic`: photo request 200,
text request 500. -/
theorem post_two_message_not_atomic_witness :
    1024 < text2000.length ∧
    envThenFail.outcome 0 = .resp 200 ∧
    post_to_telegram envThenFail text2000 (some [0]) =
      (false, [.sendPhoto short_caption, .sendMessage text2000]) :=
  ⟨by rw [text2000_length]; omega, by decide,
    post_two_message_not_atomic envThenFail text2000 [0]
      (by rw [text2000_length]; omega) (by decide) (by decide)⟩

/-- C1 counterexample: with every request answering HTTP 503, a publish
of a plain text message performs exactly one outbound send, not the three
attempts the claim's retry wrapper would make. -/
theorem post_no_retry_counterexample :
    (post_to_telegram envAll503 "a" none).2.length = 1 ∧
    ¬ (post_to_telegram envAll503 "a" none).2.length = 3 := by
  constructor
  · rfl
  · intro h
    simp [post_to_telegram, post_to_telegram_body, envAll503] at h

/-- C1 amended: no outbound publish send is retried — the publisher
issues each underlying HTTP request at most once (never more than two
sends in any call), and a 503 failure on the single attempt is not
retried: the call performs exactly one send and reports `false`. -/
theorem post_single_attempt (env : TgEnv) (text : String)
    (h503 : env.outcome 0 = .resp 503) :
    post_to_telegram env text none = (false, [.sendMessage text]) ∧
    ∀ img, (post_to_telegram env text img).2.length ≤ 2 := by
  constructor
  · simp [post_to_telegram, post_to_telegram_body, h503]
  · intro img
    rcases img with _ | i
    · rcases h0 : env.outcome 0 with s | _
      · by_cases hs : s = 200 <;>
          simp [post_to_telegram, post_to_telegram_body, h0, hs]
      · simp [post_to_telegram, post_to_telegram_body, h0]
    · by_cases hlen : text.length ≤ 1024
      · rcases h0 : env.outcome 0 with s | _
        · by_cases hs : s = 200 <;>
            simp [post_to_telegram, post_to_telegram_body, hlen, h0, hs]
        · simp [post_to_telegram, post_to_telegram_body, hlen, h0]
      · rcases h0 : env.outcome 0 with s | _
        · by_cases hs : s = 200
          · rcases h1 : env.outcome 1 with s2 | _
            · by_cases hs2 : s2 = 200 <;>
                simp [post_to_telegram, post_to_telegram_body, hlen, h0, h1, hs, hs2]
            · simp [post_to_telegram, post_to_telegram_body, hlen, h0, h1, hs]
          · simp [post_to_telegram, post_to_telegram_body, hlen, h0, hs]
        · simp [post_to_telegram, post_to_telegram_body, hlen, h0]

/-- Witness for `post_single_attempt` at the all-503 environment. -/
theorem post_single_attempt_witness :
    post_to_telegram envAll503 "b" none = (false, [.sendMessage "b"]) :=
  (post_single_attempt envAll503 "b" (by decide)).1

/-! ## Content-generation claims -/

theorem pyStrip_eq_empty (s : String) (h : pyStrip s = "") :
    ∀ c ∈ s.data, c.isWhitespace := by
  intro c hc
  unfold pyStrip at h
  have hdata :
      ((s.data.dropWhile Char.isWhitespace).reverse.dropWhile
        Char.isWhitespace).reverse = [] :=
    congrArg String.data h
  rw [List.reverse_eq_nil_iff, List.dropWhile_eq_nil_iff] at hdata
  have hdrop : ∀ x ∈ s.data.dropWhile Char.isWhitespace, x.isWhitespace := by
    intro x hx
    exact hdata x (List.mem_reverse.mpr hx)
  have hsplit : c ∈ s.data.takeWhile Char.isWhitespace ++
      s.data.dropWhile Char.isWhitespace := by
    rw [List.takeWhile_append_dropWhile]
    exact hc
  rcases List.mem_append.mp hsplit with h1 | h2
  · exact List.mem_takeWhile_imp h1
  · exact hdrop c h2

theorem get_fallback_text_length (topic : String) :
    (get_fallback_text topic).length =
      fallback_before_topic.length + topic.length + fallback_after_topic.length := by
  simp [get_fallback_text, String.length_append]

/-- C4 counterexample: the upstream text `" "` is truthy (non-empty), so
the code returns it stripped — the caller receives the empty string for a
topic of the fixed list, refuting "always returns a non-empty string". -/
theorem generate_text_empty_counterexample :
    topic0 ∈ ai_topics ∧
    generate_uzbek_text (Except.ok (some " ")) topic0 = "" := by
  constructor
  · unfold ai_topics topic0
    exact List.mem_cons_self _ _
  · decide

/-- C4 amended: for every topic in the fixed list, when the upstream call
raises, the response lacks a text field, or the text is empty, the caller
receives the topic-parameterized fallback paragraph, which is non-empty
and contains the topic; an empty result can reach the caller only when
the upstream text is non-empty but consists entirely of whitespace. -/
theorem generate_text_fallback (topic : String) (_htopic : topic ∈ ai_topics) :
    generate_uzbek_text (.error ()) topic = get_fallback_text topic ∧
    generate_uzbek_text (.ok none) topic = get_fallback_text topic ∧
    generate_uzbek_text (.ok (some "")) topic = get_fallback_text topic ∧
    0 < (get_fallback_text topic).length ∧
    (∃ before after, get_fallback_text topic = before ++ topic ++ after) ∧
    (∀ s, generate_uzbek_text (.ok (some s)) topic = "" →
      s ≠ "" ∧ ∀ c ∈ s.data, c.isWhitespace) := by
  have hpos : 0 < (get_fallback_text topic).length := by
    rw [get_fallback_text_length]
    have hb : 0 < fallback_before_topic.length := by decide
    omega
  refine ⟨rfl, rfl, rfl, hpos, ⟨fallback_before_topic, fallback_after_topic, rfl⟩, ?_⟩
  intro s hs
  by_cases hse : s = ""
  · subst hse
    simp [generate_uzbek_text] at hs
    rw [hs] at hpos
    simp at hpos
  · simp [generate_uzbek_text, hse] at hs
    exact ⟨hse, pyStrip_eq_empty s hs⟩

/-- Witness for `generate_text_fallback` at the first topic. -/
theorem generate_text_fallback_witness :
    generate_uzbek_text (Except.error ()) topic0 = get_fallback_text topic0 :=
  (generate_text_fallback topic0
    (by unfold ai_topics topic0; exact List.mem_cons_self _ _)).1

/-! ## Image-provider claims -/

theorem scan_parts_pos (f : String → Except Unit (List Nat)) :
    ∀ ps buf, scan_parts f ps = .ok (some buf) → 0 < buf.length := by
  intro ps
  induction ps with
  | nil =>
    intro buf h
    simp [scan_parts] at h
  | cons p ps ih =>
    intro buf h
    unfold scan_parts at h
    split at h
    · exact ih buf h
    · split at h
      · exact Except.noConfusion h
      · split at h
        · injection h with h1
          injection h1 with h2
          subst h2
          assumption
        · exact ih buf h
    · split at h
      · injection h with h1
        injection h1 with h2
        subst h2
        assumption
      · exact ih buf h

/-- C7: image production tries AI generation first, validating that the
response carries non-empty decodable data; when the AI path yields
nothing (validation failure, decode error, or upstream exception — all
converted to `none` inside `generate_topic_image`), the chain falls back
to the locally synthesized graphic; the caller always receives either an
image buffer or the explicit no-image signal `none`. -/
theorem image_chain_spec (b64decode : String → Except Unit (List Nat))
    (resp : Except Unit (Option (List ImgPart))) (render : Except Unit (List Nat)) :
    (∀ buf, generate_topic_image b64decode resp = some buf →
      0 < buf.length ∧ produce_image b64decode resp render = some buf) ∧
    (generate_topic_image b64decode resp = none →
      produce_image b64decode resp render = create_topic_graphic render) ∧
    (produce_image b64decode resp render = none ∨
      ∃ buf, produce_image b64decode resp render = some buf) := by
  refine ⟨?_, ?_, ?_⟩
  · intro buf hbuf
    refine ⟨?_, ?_⟩
    · cases resp with
      | error u => simp [generate_topic_image] at hbuf
      | ok op =>
        cases op with
        | none => simp [generate_topic_image] at hbuf
        | some parts =>
          simp only [generate_topic_image] at hbuf
          rcases hscan : scan_parts b64decode parts with u | r
          · simp [hscan] at hbuf
          · simp only [hscan] at hbuf
            rw [hbuf] at hscan
            exact scan_parts_pos b64decode parts buf hscan
    · unfold produce_image
      rw [hbuf]
  · intro hnone
    unfold produce_image
    rw [hnone]
  · rcases hg : generate_topic_image b64decode resp with _ | buf
    · rcases hcg : create_topic_graphic render with _ | buf2
      · exact Or.inl (by simp [produce_image, hg, hcg])
      · exact Or.inr ⟨buf2, by simp [produce_image, hg, hcg]⟩
    · exact Or.inr ⟨buf, by simp [produce_image, hg]⟩

/-- Witness for `image_chain_spec`: a one-part raw response. -/
theorem image_chain_spec_witness :
    0 < [7].length ∧ produce_image b64stub aiRespRaw7 renderOk1 = some [7] :=
  (image_chain_spec b64stub aiRespRaw7 renderOk1).1 [7] (by decide)

/-! ## Scheduler-loop claims -/

/-- C8: an exception raised inside a scheduled generate-and-post
invocation never terminates the polling loop: the task body's
`try`/`except` makes the task return normally in every environment, and
for every stream of `run_pending` outcomes the loop is still alive after
`k` cycles having performed exactly `k` pending-checks. -/
theorem scheduler_never_terminates :
    (∀ env, create_and_post_ai_post env = Except.ok ()) ∧
    (∀ outcomes k, scheduler_alive outcomes k = some k) := by
  constructor
  · intro env
    cases h : create_and_post_body env with
    | error u => simp [create_and_post_ai_post, h]
    | ok b => simp [create_and_post_ai_post, h]
  · intro outcomes k
    induction k with
    | zero => rfl
    | succ k ih =>
      unfold scheduler_alive
      rw [ih]
      cases houtcome : outcomes k <;> simp [houtcome]

/-! ## Startup-configuration claims -/

/-- C9: if any of the three required credentials is absent (unset or
empty) at startup, the schedule is never installed and the scheduler
thread never starts, while the liveness web server still starts and
serves health checks. -/
theorem missing_credentials_disable_posting (cfg : EnvCfg)
    (h : isMissing cfg.google_api_key = true ∨
      isMissing cfg.telegram_bot_token = true ∨
      isMissing cfg.telegram_channel_id = true) :
    (main_startup cfg).schedule_installed = false ∧
    (main_startup cfg).scheduler_started = false ∧
    (main_startup cfg).web_server_started = true ∧
    health_response = "healthy" := by
  have hne : missing_vars cfg ≠ [] := by
    rcases h with h | h | h <;> simp [missing_vars, h]
  have hempty : (missing_vars cfg).isEmpty = false := by
    rcases he : (missing_vars cfg).isEmpty with _ | _
    · rfl
    · exact absurd (List.isEmpty_iff.mp he) hne
  exact ⟨by simp [main_startup, hempty], by simp [main_startup, hempty], rfl, rfl⟩

/-- Witness for `missing_credentials_disable_posting` with the AI key
unset. -/
theorem missing_credentials_disable_posting_witness :
    (main_startup ⟨none, some "t", some "c"⟩).schedule_installed = false :=
  (missing_credentials_disable_posting ⟨none, some "t", some "c"⟩ (Or.inl rfl)).1

end NanoBanana
